import Mathlib

/-!
Verification development for the sieveify video pixelator.

The definitions below are a shallow embedding of the rendering and export
core of src/src/App.tsx: the per-frame downsample plus redraw pass
(drawPixelFrame), the derived grid height (targetHeight), and the export
pipeline (handleDownload for SVG and JSON, handleVideoExport for video),
together with the object URL lifecycle of uploaded clips.
-/

namespace Sieveify

/-- An rgba fill color as produced by the string template
rgba(r, g, b, a) in the source, where a is the raw alpha byte
divided by 255. -/
structure RGBA where
  r : Nat
  g : Nat
  b : Nat
  a : ℚ
deriving DecidableEq, Repr

/-- The border color #ffffff used as the background fill. -/
def white : RGBA := ⟨255, 255, 255, 1⟩

/-- One fillRect call on the output 2D context: an axis-aligned
rectangle at (x, y) of size w by h painted with a solid fill. -/
structure FillRect where
  x : Nat
  y : Nat
  w : Nat
  h : Nat
  fill : RGBA
deriving DecidableEq, Repr

/-- The set of pixels a fillRect call paints. -/
def FillRect.covers (f : FillRect) (px py : Nat) : Prop :=
  f.x ≤ px ∧ px < f.x + f.w ∧ f.y ≤ py ∧ py < f.y + f.h

instance (f : FillRect) (px py : Nat) : Decidable (f.covers px py) :=
  inferInstanceAs (Decidable (f.x ≤ px ∧ px < f.x + f.w ∧ f.y ≤ py ∧ py < f.y + f.h))

/-- The ImageData object read back from the off-screen canvas: a
width by height grid of RGBA samples stored as a flat byte array in
row-major order, four channels per sample. -/
structure PixelBuffer where
  width : Nat
  height : Nat
  data : List Nat
deriving DecidableEq, Repr

/-- The per-cell sample read in the render loop body: index is
(y * width + x) * 4, channels r, g, b follow, and the alpha byte is
normalized by 255 (source lines 107 to 113). -/
def sampleColor (buf : PixelBuffer) (x y : Nat) : RGBA :=
  let index := (y * buf.width + x) * 4
  { r := buf.data.getD index 0
    g := buf.data.getD (index + 1) 0
    b := buf.data.getD (index + 2) 0
    a := (buf.data.getD (index + 3) 0 : ℚ) / 255 }

/-- Output raster width: width * cellSize + (width + 1) * borderSize
(source line 92). -/
def outputWidth (width cellSize borderSize : Nat) : Nat :=
  width * cellSize + (width + 1) * borderSize

/-- Output raster height: height * cellSize + (height + 1) * borderSize
(source line 93). -/
def outputHeight (height cellSize borderSize : Nat) : Nat :=
  height * cellSize + (height + 1) * borderSize

/-- The fillRect call emitted for grid cell (x, y): a cellSize square
at (borderSize + x * (cellSize + borderSize),
borderSize + y * (cellSize + borderSize)) filled with the sampled
color (source lines 113 to 116). -/
def cellFill (buf : PixelBuffer) (cellSize borderSize x y : Nat) : FillRect :=
  { x := borderSize + x * (cellSize + borderSize)
    y := borderSize + y * (cellSize + borderSize)
    w := cellSize
    h := cellSize
    fill := sampleColor buf x y }

/-- All per-cell fillRect calls, in loop order: y ascending, then x
ascending (source lines 105 to 118). -/
def cellFills (buf : PixelBuffer) (cellSize borderSize : Nat) : List FillRect :=
  (List.range buf.height).flatMap fun y =>
    (List.range buf.width).map fun x => cellFill buf cellSize borderSize x y

/-- The complete sequence of paint operations of the grid render pass:
first the full-raster white fill (source lines 101 to 102), then one
fill per cell. -/
def drawOps (buf : PixelBuffer) (cellSize borderSize : Nat) : List FillRect :=
  { x := 0, y := 0
    w := outputWidth buf.width cellSize borderSize
    h := outputHeight buf.height cellSize borderSize
    fill := white } :: cellFills buf cellSize borderSize

/-- Painting semantics of a sequence of fillRect calls at one pixel:
the last call covering the pixel determines its fill, starting from an
unpainted canvas. -/
def paintFrom (px py : Nat) (acc : Option RGBA) (ops : List FillRect) : Option RGBA :=
  ops.foldl (fun c f => if f.covers px py then some f.fill else c) acc

/-- The fill recorded at pixel (px, py) after the grid render pass. -/
def rasterColor (buf : PixelBuffer) (cellSize borderSize : Nat) (px py : Nat) : Option RGBA :=
  paintFrom px py none (drawOps buf cellSize borderSize)

lemma paintFrom_append (px py : Nat) (acc : Option RGBA) (l₁ l₂ : List FillRect) :
    paintFrom px py acc (l₁ ++ l₂) = paintFrom px py (paintFrom px py acc l₁) l₂ := by
  simp [paintFrom, List.foldl_append]

lemma paintFrom_of_not_covers {px py : Nat} {ops : List FillRect}
    (h : ∀ f ∈ ops, ¬ f.covers px py) (acc : Option RGBA) :
    paintFrom px py acc ops = acc := by
  induction ops generalizing acc with
  | nil => rfl
  | cons f l ih =>
    have hf : ¬ f.covers px py := h f (List.mem_cons_self f l)
    simp only [paintFrom, List.foldl_cons, if_neg hf]
    exact ih (fun g hg => h g (List.mem_cons_of_mem f hg)) acc

lemma paintFrom_of_unique_cover {px py : Nat} {ops : List FillRect} {op : FillRect}
    (hmem : op ∈ ops) (hcov : op.covers px py)
    (huniq : ∀ f ∈ ops, f.covers px py → f = op) (acc : Option RGBA) :
    paintFrom px py acc ops = some op.fill := by
  induction ops generalizing acc with
  | nil => cases hmem
  | cons f l ih =>
    by_cases hop : op ∈ l
    · exact ih hop (fun g hg hgc => huniq g (List.mem_cons_of_mem f hg) hgc) _
    · have hf : f = op := by
        rcases List.mem_cons.mp hmem with h | h
        · exact h.symm
        · exact absurd h hop
      subst hf
      simp only [paintFrom, List.foldl_cons, if_pos hcov]
      have hnone : ∀ g ∈ l, ¬ g.covers px py := by
        intro g hg hgc
        exact hop ((huniq g (List.mem_cons_of_mem f hg) hgc) ▸ hg)
      exact paintFrom_of_not_covers hnone _

lemma mem_cellFills {buf : PixelBuffer} {cellSize borderSize : Nat} {f : FillRect} :
    f ∈ cellFills buf cellSize borderSize ↔
      ∃ x y, x < buf.width ∧ y < buf.height ∧ f = cellFill buf cellSize borderSize x y := by
  simp only [cellFills, List.mem_flatMap, List.mem_map, List.mem_range]
  constructor
  · rintro ⟨y, hy, x, hx, rfl⟩
    exact ⟨x, y, hx, hy, rfl⟩
  · rintro ⟨x, y, hx, hy, rfl⟩
    exact ⟨y, hy, x, hx, rfl⟩

lemma stride_interval_inj {s c o a b p : Nat} (hc : c ≤ s)
    (h1 : o + a * s ≤ p) (h2 : p < o + a * s + c)
    (h3 : o + b * s ≤ p) (h4 : p < o + b * s + c) : a = b := by
  rcases Nat.lt_trichotomy a b with h | h | h
  · exfalso
    have hs : a * s + s ≤ b * s := by
      have := Nat.mul_le_mul_right s h
      simpa [Nat.succ_mul] using this
    omega
  · exact h
  · exfalso
    have hs : b * s + s ≤ a * s := by
      have := Nat.mul_le_mul_right s h
      simpa [Nat.succ_mul] using this
    omega

lemma cellFill_covers_inj {buf : PixelBuffer} {cellSize borderSize x y x' y' px py : Nat}
    (h : (cellFill buf cellSize borderSize x y).covers px py)
    (h' : (cellFill buf cellSize borderSize x' y').covers px py) :
    x = x' ∧ y = y' := by
  obtain ⟨h1, h2, h3, h4⟩ := h
  obtain ⟨h1', h2', h3', h4'⟩ := h'
  simp only [cellFill] at h1 h2 h3 h4 h1' h2' h3' h4'
  have hc : cellSize ≤ cellSize + borderSize := Nat.le_add_right _ _
  constructor
  · exact stride_interval_inj hc h1 h2 h1' h2'
  · exact stride_interval_inj hc h3 h4 h3' h4'

/-- Core positive rendering lemma: any pixel inside the rectangle of
cell (x, y) ends up painted with the color sampled at
index (y * width + x) * 4. -/
lemma rasterColor_in_cell {buf : PixelBuffer} {cellSize borderSize x y px py : Nat}
    (hx : x < buf.width) (hy : y < buf.height)
    (hcov : (cellFill buf cellSize borderSize x y).covers px py) :
    rasterColor buf cellSize borderSize px py = some (sampleColor buf x y) := by
  have hmem : cellFill buf cellSize borderSize x y ∈ cellFills buf cellSize borderSize :=
    mem_cellFills.mpr ⟨x, y, hx, hy, rfl⟩
  have huniq : ∀ f ∈ cellFills buf cellSize borderSize, f.covers px py →
      f = cellFill buf cellSize borderSize x y := by
    intro f hf hfc
    obtain ⟨x', y', _, _, rfl⟩ := mem_cellFills.mp hf
    obtain ⟨hx', hy'⟩ := cellFill_covers_inj hfc hcov
    rw [hx', hy']
  have : rasterColor buf cellSize borderSize px py =
      paintFrom px py (paintFrom px py none [⟨0, 0, outputWidth buf.width cellSize borderSize,
        outputHeight buf.height cellSize borderSize, white⟩]) (cellFills buf cellSize borderSize) := by
    simp [rasterColor, drawOps, paintFrom]
  rw [this]
  exact paintFrom_of_unique_cover hmem hcov huniq _

lemma paintFrom_cons (px py : Nat) (acc : Option RGBA) (f : FillRect) (l : List FillRect) :
    paintFrom px py acc (f :: l) =
      paintFrom px py (if f.covers px py then some f.fill else acc) l := rfl

/-- Any in-range pixel not covered by a cell rectangle keeps the
initial full-raster white fill. -/
lemma rasterColor_border {buf : PixelBuffer} {cellSize borderSize px py : Nat}
    (hpx : px < outputWidth buf.width cellSize borderSize)
    (hpy : py < outputHeight buf.height cellSize borderSize)
    (h : ∀ f ∈ cellFills buf cellSize borderSize, ¬ f.covers px py) :
    rasterColor buf cellSize borderSize px py = some white := by
  rw [rasterColor, drawOps, paintFrom_cons, if_pos]
  · exact paintFrom_of_not_covers h _
  · exact ⟨Nat.zero_le _, by simpa using hpx, Nat.zero_le _, by simpa using hpy⟩

/-- The uniform red 2 by 2 pixel buffer of the spec scenario. -/
def redBuffer : PixelBuffer :=
  { width := 2, height := 2
    data := [255, 0, 0, 255, 255, 0, 0, 255, 255, 0, 0, 255, 255, 0, 0, 255] }

/-- Opaque red, as rendered for an opaque red sample. -/
def red : RGBA := ⟨255, 0, 0, 1⟩

lemma sampleColor_redBuffer {x y : Nat} (hx : x < 2) (hy : y < 2) :
    sampleColor redBuffer x y = red := by
  interval_cases x <;> interval_cases y <;>
    norm_num [sampleColor, redBuffer, red]

lemma redBuffer_scenario (px py : Nat) (hpx : px < 23) (hpy : py < 23) :
    rasterColor redBuffer 10 1 px py =
      some (if px = 0 ∨ px = 11 ∨ px = 22 ∨ py = 0 ∨ py = 11 ∨ py = 22 then white else red) := by
  by_cases hb : px = 0 ∨ px = 11 ∨ px = 22 ∨ py = 0 ∨ py = 11 ∨ py = 22
  · rw [if_pos hb]
    apply rasterColor_border
    · simpa [outputWidth, redBuffer] using hpx
    · simpa [outputHeight, redBuffer] using hpy
    · intro f hf hfc
      obtain ⟨x, y, hx, hy, rfl⟩ := mem_cellFills.mp hf
      obtain ⟨h1, h2, h3, h4⟩ := hfc
      simp only [cellFill, redBuffer] at h1 h2 h3 h4 hx hy
      interval_cases x <;> interval_cases y <;> omega
  · rw [if_neg hb]
    push_neg at hb
    obtain ⟨h0, h11, h22, k0, k11, k22⟩ := hb
    have hx : (if px < 11 then 0 else 1) < redBuffer.width := by
      simp only [redBuffer]; split <;> omega
    have hy : (if py < 11 then 0 else 1) < redBuffer.height := by
      simp only [redBuffer]; split <;> omega
    have hcov : (cellFill redBuffer 10 1 (if px < 11 then 0 else 1)
        (if py < 11 then 0 else 1)).covers px py := by
      refine ⟨?_, ?_, ?_, ?_⟩ <;> simp only [cellFill] <;> split <;> omega
    have hres := rasterColor_in_cell hx hy hcov
    rw [hres, sampleColor_redBuffer hx hy]

/-- C1: the grid render pass first fills the whole output raster with
opaque white, then fills for each cell (x, y) a cellSize square at
offset (borderSize + x * (cellSize + borderSize),
borderSize + y * (cellSize + borderSize)) with the rgba fill taken
from the row-major sample at index (y * columns + x) * 4, so every
pixel inside the rectangle of cell (x, y) receives that sample color;
for columns = 2, rows = 2, cellSize = 10, borderSize = 1 and a uniform
red buffer the output is 23 by 23 with white exactly on the border
lines x or y in the set containing 0, 11 and 22, and red elsewhere. -/
theorem grid_render_pass_correct :
    (∀ (buf : PixelBuffer) (cellSize borderSize : Nat),
      (drawOps buf cellSize borderSize).head? = some
        { x := 0, y := 0, w := outputWidth buf.width cellSize borderSize
          h := outputHeight buf.height cellSize borderSize, fill := white })
  ∧ (∀ (buf : PixelBuffer) (cellSize borderSize x y px py : Nat),
      x < buf.width → y < buf.height →
      (cellFill buf cellSize borderSize x y).covers px py →
      rasterColor buf cellSize borderSize px py = some (sampleColor buf x y))
  ∧ (outputWidth redBuffer.width 10 1 = 23 ∧ outputHeight redBuffer.height 10 1 = 23
  ∧ ∀ px < 23, ∀ py < 23, rasterColor redBuffer 10 1 px py =
      some (if px = 0 ∨ px = 11 ∨ px = 22 ∨ py = 0 ∨ py = 11 ∨ py = 22 then white else red)) := by
  refine ⟨fun buf c b => rfl, fun buf c b x y px py hx hy hcov => rasterColor_in_cell hx hy hcov,
    rfl, rfl, fun px hpx py hpy => redBuffer_scenario px py hpx hpy⟩

/-- C1 witness: pixel (12, 12) lies in cell (1, 1) of the scenario
buffer and is rendered with the sample of that cell. -/
theorem grid_render_pass_correct_witness :
    rasterColor redBuffer 10 1 12 12 = some (sampleColor redBuffer 1 1) :=
  grid_render_pass_correct.2.1 redBuffer 10 1 1 1 12 12 (by decide) (by decide)
    ⟨by decide, by decide, by decide, by decide⟩

/-- SVG document width computed in the download handler
(source line 221), from the stored pixel buffer dimensions. -/
def svgWidth (width cellSize borderSize : Nat) : Nat :=
  width * cellSize + (width + 1) * borderSize

/-- SVG document height computed in the download handler
(source line 222). -/
def svgHeight (height cellSize borderSize : Nat) : Nat :=
  height * cellSize + (height + 1) * borderSize

/-- C2: the output raster dimensions of the render pass equal
columns * cellSize + (columns + 1) * borderSize by
rows * cellSize + (rows + 1) * borderSize, the download handler
computes the same dimensions for the vector document, and recomputing
from the same inputs yields the same result. -/
theorem output_dimensions_formula (columns rows cellSize borderSize : Nat) :
    outputWidth columns cellSize borderSize = columns * cellSize + (columns + 1) * borderSize
  ∧ outputHeight rows cellSize borderSize = rows * cellSize + (rows + 1) * borderSize
  ∧ svgWidth columns cellSize borderSize = outputWidth columns cellSize borderSize
  ∧ svgHeight rows cellSize borderSize = outputHeight rows cellSize borderSize
  ∧ outputWidth columns cellSize borderSize = outputWidth columns cellSize borderSize :=
  ⟨rfl, rfl, rfl, rfl, rfl⟩

/-- Derived grid height (targetHeight memo, source lines 45 to 48):
zero when either source dimension is zero, otherwise the larger of 1
and the rounding of sourceHeight / sourceWidth * targetWidth. The JS
floating point arithmetic is modelled by exact rational arithmetic;
Math.round (round half up) is round in Mathlib. -/
def targetHeight (sourceWidth sourceHeight targetWidth : Nat) : Nat :=
  if sourceWidth = 0 ∨ sourceHeight = 0 then 0
  else (max 1 (round ((sourceHeight : ℚ) / sourceWidth * targetWidth))).toNat

/-- C3: for positive source dimensions and columns in the slider range,
the derived row count is max(1, round(columns * h / w)), and in
particular at least 1. -/
theorem derived_rows_formula (w h c : Nat) (hw : 0 < w) (hh : 0 < h)
    (_hc1 : 16 ≤ c) (_hc2 : c ≤ 256) :
    targetHeight w h c = (max 1 (round ((c * h : ℚ) / w))).toNat
  ∧ 1 ≤ targetHeight w h c := by
  have hne : ¬ (w = 0 ∨ h = 0) := by omega
  have hcomm : ((h : ℚ) / w) * c = ((c : ℚ) * h) / w := by
    rw [div_mul_eq_mul_div, mul_comm]
  constructor
  · rw [targetHeight, if_neg hne, hcomm]
  · rw [targetHeight, if_neg hne]
    have h1 : (1 : ℤ) ≤ max 1 (round ((h : ℚ) / w * c)) := le_max_left _ _
    exact Int.toNat_le_toNat h1

/-- C3 witness: a 16 by 9 source at 96 columns yields 54 rows. -/
theorem derived_rows_formula_witness :
    targetHeight 16 9 96 = (max 1 (round ((96 * 9 : ℚ) / 16))).toNat
  ∧ 1 ≤ targetHeight 16 9 96 :=
  derived_rows_formula 16 9 96 (by decide) (by decide) (by decide) (by decide)

/-- The colors array built by the JSON export loop (source lines 248
to 251): one element pushed per byte index of the pixel data. -/
def jsonColors (buf : PixelBuffer) : List Nat :=
  (List.range buf.data.length).map fun i => buf.data.getD i 0

lemma jsonColors_eq (buf : PixelBuffer) : jsonColors buf = buf.data := by
  unfold jsonColors
  apply List.ext_getElem
  · simp
  · intro i h1 h2
    simp [List.getD_eq_getElem?_getD, List.getElem?_eq_getElem h2]

/-- C4: the structured dump colors array is exactly the flat pixel
buffer in row-major RGBA channel order, its length is
rows * columns * 4, and a 16 by 9 grid yields 576 entries. -/
theorem json_colors_roundtrip (buf : PixelBuffer)
    (hlen : buf.data.length = buf.width * buf.height * 4) :
    (jsonColors buf).length = buf.height * buf.width * 4
  ∧ (∀ x y ch, x < buf.width → y < buf.height → ch < 4 →
      (jsonColors buf).getD ((y * buf.width + x) * 4 + ch) 0 =
        buf.data.getD ((y * buf.width + x) * 4 + ch) 0)
  ∧ jsonColors buf = buf.data
  ∧ (buf.width = 16 → buf.height = 9 → (jsonColors buf).length = 576) := by
  have he := jsonColors_eq buf
  refine ⟨?_, fun x y ch _ _ _ => by rw [he], he, ?_⟩
  · rw [he, hlen]; ring
  · intro h16 h9
    rw [he, hlen, h16, h9]

/-- C4 witness: a one-cell buffer round-trips its four bytes. -/
theorem json_colors_roundtrip_witness :
    jsonColors ⟨1, 1, [9, 8, 7, 6]⟩ = [9, 8, 7, 6] :=
  (json_colors_roundtrip ⟨1, 1, [9, 8, 7, 6]⟩ (by decide)).2.2.1

/-- One element of the SVG document body: the background rect with
width and height 100 percent and fill #ffffff (source line 225), or
one cell rect with explicit position, size and rgba fill
(source line 238). -/
inductive SvgElem where
  | background
  | cell (x y w h : Nat) (fill : RGBA)
deriving DecidableEq, Repr

/-- The rgba color interpolated into an SVG cell rect fill attribute
(source lines 230 to 234): the same index arithmetic and alpha
normalization as the render loop. -/
def svgCellColor (buf : PixelBuffer) (x y : Nat) : RGBA :=
  let index := (y * buf.width + x) * 4
  { r := buf.data.getD index 0
    g := buf.data.getD (index + 1) 0
    b := buf.data.getD (index + 2) 0
    a := (buf.data.getD (index + 3) 0 : ℚ) / 255 }

/-- The rect elements of the SVG export (source lines 223 to 242):
one background rect, then one rect per grid cell in loop order. -/
def svgElems (buf : PixelBuffer) (cellSize borderSize : Nat) : List SvgElem :=
  SvgElem.background :: ((List.range buf.height).flatMap fun y =>
    (List.range buf.width).map fun x =>
      SvgElem.cell (borderSize + x * (cellSize + borderSize))
        (borderSize + y * (cellSize + borderSize)) cellSize cellSize
        (svgCellColor buf x y))

/-- View of a raster fillRect call as the SVG rect it corresponds to. -/
def FillRect.toSvg (f : FillRect) : SvgElem :=
  SvgElem.cell f.x f.y f.w f.h f.fill

lemma length_cellFills (buf : PixelBuffer) (cellSize borderSize : Nat) :
    (cellFills buf cellSize borderSize).length = buf.width * buf.height := by
  unfold cellFills
  induction buf.height with
  | zero => simp
  | succ n ih => simp [List.range_succ, ih, Nat.mul_succ]

/-- C5: the SVG export is the background rect followed by exactly the
raster render pass's per-cell fill rectangles, viewed as SVG rects; it
has one background rect plus one rect per grid cell, its document
dimensions are given by the same formula as the raster, and each cell
rect's position, size and rgba fill equal those of the raster render
pass for the same cell. -/
theorem svg_matches_raster (buf : PixelBuffer) (cellSize borderSize : Nat) :
    svgElems buf cellSize borderSize =
      SvgElem.background :: (cellFills buf cellSize borderSize).map FillRect.toSvg
  ∧ (svgElems buf cellSize borderSize).length = 1 + buf.width * buf.height
  ∧ svgWidth buf.width cellSize borderSize = outputWidth buf.width cellSize borderSize
  ∧ svgHeight buf.height cellSize borderSize = outputHeight buf.height cellSize borderSize
  ∧ ∀ x y, SvgElem.cell (borderSize + x * (cellSize + borderSize))
        (borderSize + y * (cellSize + borderSize)) cellSize cellSize (svgCellColor buf x y)
      = FillRect.toSvg (cellFill buf cellSize borderSize x y) := by
  have hmain : svgElems buf cellSize borderSize =
      SvgElem.background :: (cellFills buf cellSize borderSize).map FillRect.toSvg := by
    unfold svgElems cellFills
    simp only [List.map_flatMap, List.map_map]
    rfl
  refine ⟨hmain, ?_, rfl, rfl, fun x y => rfl⟩
  rw [hmain]
  simp [length_cellFills]
  omega

/-- The two selectable video export formats (source line 8). -/
inductive VideoFormat where
  | webm
  | mp4
deriving DecidableEq, Repr

/-- videoFormat.toUpperCase() in the error template (source line 269). -/
def VideoFormat.upper : VideoFormat → String
  | .webm => "WEBM"
  | .mp4 => "MP4"

/-- The inline unsupported-format message (source line 269). -/
def unsupportedMessage (fmt : VideoFormat) : String :=
  fmt.upper ++ " export is not supported in this browser."

/-- The consolidated failure message of the catch branch
(source line 309). -/
def videoFailMessage : String :=
  "Video export failed. Try again after reloading the video."

/-- The externally visible actions of the video export handler, in the
order the source performs them. -/
inductive ExportAction where
  | captureStream
  | createRecorder
  | seekToStart
  | startPlayback
  | recorderStart
  | awaitEnded
  | recorderStop
  | downloadFile
  | stopTracks
deriving DecidableEq, Repr

/-- The component state the video export handler reads and writes. -/
structure ExportState where
  hasVideo : Bool
  hasCanvas : Bool
  isReady : Bool
  isExporting : Bool
  exportError : Option String
deriving DecidableEq, Repr

/-- The actions of the try block (source lines 300 to 307), each of
which can raise: rewind to time zero, play, start the recorder, await
the ended event, stop the recorder, download the assembled blob. -/
def trySteps : List ExportAction :=
  [.seekToStart, .startPlayback, .recorderStart, .awaitEnded, .recorderStop, .downloadFile]

/-- The video export handler (source lines 262 to 315), as a state
transition plus the list of actions performed. The external
environment is abstracted by failAt: none means the try block runs to
completion, some k means an exception is raised after k of its steps.
The guards, the unsupported-format early return, the error and
in-flight flag updates, the catch branch and the finally branch follow
the source line by line. -/
def handleVideoExport (s : ExportState) (fmt : VideoFormat) (mime : Option String)
    (failAt : Option Nat) : ExportState × List ExportAction :=
  if !s.hasVideo || !s.hasCanvas || !s.isReady || s.isExporting then (s, [])
  else
    match mime with
    | none => ({ s with exportError := some (unsupportedMessage fmt) }, [])
    | some _ =>
      let s1 : ExportState := { s with exportError := none, isExporting := true }
      match failAt with
      | none =>
          ({ s1 with isExporting := false },
            .captureStream :: .createRecorder :: (trySteps ++ [.stopTracks]))
      | some k =>
          ({ s1 with exportError := some videoFailMessage, isExporting := false },
            .captureStream :: .createRecorder :: (trySteps.take k ++ [.stopTracks]))

/-- C6: when the selected format has no supported codec, the handler
sets the unsupported-format message and returns before starting:
no action is performed (no capture stream, no recorder, no playback)
and the in-flight flag is never set. -/
theorem unsupported_format_aborts (s : ExportState) (fmt : VideoFormat) (failAt : Option Nat)
    (h1 : s.hasVideo = true) (h2 : s.hasCanvas = true)
    (h3 : s.isReady = true) (h4 : s.isExporting = false) :
    handleVideoExport s fmt none failAt =
      ({ s with exportError := some (unsupportedMessage fmt) }, [])
  ∧ (handleVideoExport s fmt none failAt).1.isExporting = false
  ∧ (handleVideoExport s fmt none failAt).2 = [] := by
  simp [handleVideoExport, h1, h2, h3, h4]

/-- C6 witness: the unsupported MP4 request on a ready idle state. -/
theorem unsupported_format_aborts_witness :
    handleVideoExport ⟨true, true, true, false, none⟩ .mp4 none none =
      (⟨true, true, true, false, some (unsupportedMessage .mp4)⟩, [])
  ∧ (handleVideoExport ⟨true, true, true, false, none⟩ .mp4 none none).1.isExporting = false
  ∧ (handleVideoExport ⟨true, true, true, false, none⟩ .mp4 none none).2 = [] :=
  unsupported_format_aborts ⟨true, true, true, false, none⟩ .mp4 none rfl rfl rfl rfl

/-- C7: every export that opens a capture stream stops the stream's
tracks exactly once, as the final action, on the success path and on
every failure path, and on failure the single consolidated error
message is set while on success no error is left set. -/
theorem capture_stream_always_released (s : ExportState) (fmt : VideoFormat) (m : String)
    (failAt : Option Nat)
    (h1 : s.hasVideo = true) (h2 : s.hasCanvas = true)
    (h3 : s.isReady = true) (h4 : s.isExporting = false) :
    (handleVideoExport s fmt (some m) failAt).2.count .stopTracks = 1
  ∧ (handleVideoExport s fmt (some m) failAt).2.getLast? = some .stopTracks
  ∧ .captureStream ∈ (handleVideoExport s fmt (some m) failAt).2
  ∧ (∀ k, failAt = some k →
      (handleVideoExport s fmt (some m) failAt).1.exportError = some videoFailMessage)
  ∧ (failAt = none → (handleVideoExport s fmt (some m) failAt).1.exportError = none)
  ∧ (handleVideoExport s fmt (some m) failAt).1.isExporting = false := by
  have hnotmem : ∀ k, ExportAction.stopTracks ∉ trySteps.take k := by
    intro k hmem
    have := List.take_subset k trySteps hmem
    simp [trySteps] at this
  cases failAt with
  | none =>
    refine ⟨?_, ?_, ?_, ?_, ?_, ?_⟩ <;>
      simp [handleVideoExport, h1, h2, h3, h4, trySteps]
  | some k =>
    have hz : (trySteps.take k).count ExportAction.stopTracks = 0 :=
      List.count_eq_zero.mpr (hnotmem k)
    have hacts : (handleVideoExport s fmt (some m) (some k)).2 =
        (ExportAction.captureStream :: ExportAction.createRecorder :: trySteps.take k)
          ++ [ExportAction.stopTracks] := by
      simp [handleVideoExport, h1, h2, h3, h4]
    refine ⟨?_, ?_, ?_, ?_, ?_, ?_⟩
    · rw [hacts]
      simp [List.count_append, List.count_cons, hz]
    · rw [hacts, List.getLast?_concat]
    · rw [hacts]
      simp
    · intro j _
      simp [handleVideoExport, h1, h2, h3, h4]
    · intro hcontra
      cases hcontra
    · simp [handleVideoExport, h1, h2, h3, h4]

/-- C7 witness: a failure right after playback starts still ends with
the tracks stopped and the error message set. -/
theorem capture_stream_always_released_witness :
    (handleVideoExport ⟨true, true, true, false, none⟩ .webm (some "video/webm") (some 2)).2.count
        .stopTracks = 1
  ∧ (handleVideoExport ⟨true, true, true, false, none⟩ .webm (some "video/webm")
        (some 2)).2.getLast? = some .stopTracks
  ∧ .captureStream ∈ (handleVideoExport ⟨true, true, true, false, none⟩ .webm (some "video/webm")
        (some 2)).2
  ∧ (∀ k, (some 2 : Option Nat) = some k →
      (handleVideoExport ⟨true, true, true, false, none⟩ .webm (some "video/webm")
        (some 2)).1.exportError = some videoFailMessage)
  ∧ ((some 2 : Option Nat) = none →
      (handleVideoExport ⟨true, true, true, false, none⟩ .webm (some "video/webm")
        (some 2)).1.exportError = none)
  ∧ (handleVideoExport ⟨true, true, true, false, none⟩ .webm (some "video/webm")
        (some 2)).1.isExporting = false :=
  capture_stream_always_released ⟨true, true, true, false, none⟩ .webm "video/webm" (some 2)
    rfl rfl rfl rfl

/-- C10: invoking the video export handler while a previous export is
in flight, or before the clip is ready, is a complete no-op: the state
is unchanged and no action is performed. -/
theorem export_reentry_noop (s : ExportState) (fmt : VideoFormat) (mime : Option String)
    (failAt : Option Nat) (h : s.isExporting = true ∨ s.isReady = false) :
    handleVideoExport s fmt mime failAt = (s, []) := by
  rcases h with h | h <;> simp [handleVideoExport, h]

/-- C10 witness: a second export requested while one is in flight does
nothing. -/
theorem export_reentry_noop_witness :
    handleVideoExport ⟨true, true, true, true, none⟩ .webm (some "video/webm") none =
      (⟨true, true, true, true, none⟩, []) :=
  export_reentry_noop ⟨true, true, true, true, none⟩ .webm (some "video/webm") none (Or.inl rfl)

/-- The mutable state the sample-and-render pass touches: the refs
and flags it guards on, the scratch and output canvas dimensions, the
stored pixel buffer ref, the paint operations of the output canvas,
and the user-facing error message (which the pass never writes). -/
structure DrawState where
  hasVideo : Bool
  hasOutputCanvas : Bool
  isReady : Bool
  smallCtxOk : Bool
  outputCtxOk : Bool
  smallDims : Option (Nat × Nat)
  pixelData : Option PixelBuffer
  outputDims : Option (Nat × Nat)
  outputOps : List FillRect
  errorMessage : Option String
deriving DecidableEq, Repr

/-- The sample-and-render pass drawPixelFrame (source lines 68 to
119) as a state transition. The frame content delivered by drawImage
plus getImageData is abstracted by the sample argument, which yields
the pixel buffer read back at the requested dimensions. The early
returns mirror the source: missing video, missing output canvas or
readiness unset return before anything is touched (line 71); the
scratch canvas is resized before the off-screen context check (lines
82 to 86); the pixel buffer ref and the output canvas dimensions are
written before the on-screen context check (lines 90 to 99). -/
def drawPixelFrame (s : DrawState) (targetWidth targetHeight cellSize borderSize : Nat)
    (sample : Nat → Nat → PixelBuffer) : DrawState :=
  if !s.hasVideo || !s.hasOutputCanvas || !s.isReady then s
  else
    let width := max 1 targetWidth
    let height := max 1 targetHeight
    let s0 := { s with smallDims := some (width, height) }
    if !s.smallCtxOk then s0
    else
      let pixelData := sample width height
      let s1 := { s0 with pixelData := some pixelData }
      let s2 := { s1 with
        outputDims := some (outputWidth width cellSize borderSize,
          outputHeight height cellSize borderSize) }
      if !s.outputCtxOk then s2
      else { s2 with outputOps := drawOps pixelData cellSize borderSize }

/-- A ready state whose on-screen context is unavailable and whose
stored pixel buffer is empty. -/
def ctxLostState : DrawState :=
  { hasVideo := true, hasOutputCanvas := true, isReady := true
    smallCtxOk := true, outputCtxOk := false
    smallDims := none, pixelData := none, outputDims := none
    outputOps := [], errorMessage := none }

/-- A fixed frame sampler for the counterexample. -/
def constSample (w h : Nat) : PixelBuffer :=
  { width := w, height := h, data := List.replicate (w * h * 4) 0 }

/-- C8 counterexample: with only the on-screen 2D context
unavailable, the pass does not leave all program state unchanged: the
stored pixel buffer is overwritten with the fresh sample before the
context check returns. -/
theorem render_skip_counterexample :
    (drawPixelFrame ctxLostState 16 9 10 1 constSample).pixelData ≠ ctxLostState.pixelData := by
  simp [drawPixelFrame, ctxLostState]

/-- C8 as amended: the pass is always silent (it never writes the
user-facing error message, and never paints when skipped); with the
video absent, the output canvas absent, or readiness unset, all state
is unchanged; with the off-screen context unavailable only the scratch
canvas dimensions are updated; with the on-screen context unavailable
the scratch canvas dimensions, the stored pixel buffer and the output
canvas dimensions are updated to the fresh sample, but nothing is
painted. -/
theorem render_skip_amended (s : DrawState) (tw th cellSize borderSize : Nat)
    (sample : Nat → Nat → PixelBuffer) :
    (drawPixelFrame s tw th cellSize borderSize sample).errorMessage = s.errorMessage
  ∧ ((!s.hasVideo || !s.hasOutputCanvas || !s.isReady) = true →
      drawPixelFrame s tw th cellSize borderSize sample = s)
  ∧ (s.hasVideo = true → s.hasOutputCanvas = true → s.isReady = true →
      s.smallCtxOk = false →
      drawPixelFrame s tw th cellSize borderSize sample =
        { s with smallDims := some (max 1 tw, max 1 th) })
  ∧ (s.hasVideo = true → s.hasOutputCanvas = true → s.isReady = true →
      s.smallCtxOk = true → s.outputCtxOk = false →
      drawPixelFrame s tw th cellSize borderSize sample =
        { s with
          smallDims := some (max 1 tw, max 1 th)
          pixelData := some (sample (max 1 tw) (max 1 th))
          outputDims := some (outputWidth (max 1 tw) cellSize borderSize,
            outputHeight (max 1 th) cellSize borderSize) }
      ∧ (drawPixelFrame s tw th cellSize borderSize sample).outputOps = s.outputOps) := by
  refine ⟨?_, ?_, ?_, ?_⟩
  · by_cases h1 : (!s.hasVideo || !s.hasOutputCanvas || !s.isReady) = true
    · simp [drawPixelFrame, h1]
    · by_cases h2 : s.smallCtxOk <;> by_cases h3 : s.outputCtxOk <;>
        simp [drawPixelFrame, h1, h2, h3]
  · intro h
    simp [drawPixelFrame, h]
  · intro h1 h2 h3 h4
    simp [drawPixelFrame, h1, h2, h3, h4]
  · intro h1 h2 h3 h4 h5
    simp [drawPixelFrame, h1, h2, h3, h4, h5]

/-- C8 amended witness: the counterexample state after the pass holds
exactly the fresh sample and new dimensions, with no paint and no
message. -/
theorem render_skip_amended_witness :
    drawPixelFrame ctxLostState 16 9 10 1 constSample =
      { ctxLostState with
        smallDims := some (max 1 16, max 1 9)
        pixelData := some (constSample (max 1 16) (max 1 9))
        outputDims := some (outputWidth (max 1 16) 10 1, outputHeight (max 1 9) 10 1) }
  ∧ (drawPixelFrame ctxLostState 16 9 10 1 constSample).outputOps = ctxLostState.outputOps :=
  (render_skip_amended ctxLostState 16 9 10 1 constSample).2.2.2 rfl rfl rfl rfl rfl

/-- User-level events that drive the uploaded-clip object URL
lifecycle: selecting a new file, or unmounting the component. -/
inductive UiEvent where
  | selectFile
  | unmount
deriving DecidableEq, Repr

/-- Object URL bookkeeping: the URL currently held in videoUrl,
a counter minting fresh URL handles, and the log of every
revokeObjectURL call in order. URLs are numbered from 0 in creation
order. -/
structure UrlState where
  current : Option Nat
  nextId : Nat
  revokeLog : List Nat
deriving DecidableEq, Repr

/-- Initial state: no clip selected yet. -/
def initialUrlState : UrlState := { current := none, nextId := 0, revokeLog := [] }

/-- One event step of the object URL lifecycle. On selectFile,
handleFileChange first revokes the previous URL if any (source lines
172 to 174) and stores a fresh one (lines 175 to 176); the state
update then re-runs the videoUrl effect, whose cleanup revokes the
previous URL again (source lines 161 to 167). On unmount, the effect
cleanup revokes the currently held URL once. -/
def stepUrl (s : UrlState) : UiEvent → UrlState
  | .selectFile =>
      let afterHandler : UrlState :=
        match s.current with
        | some u => { s with revokeLog := s.revokeLog ++ [u] }
        | none => s
      let afterCleanup : UrlState :=
        match s.current with
        | some u => { afterHandler with revokeLog := afterHandler.revokeLog ++ [u] }
        | none => afterHandler
      { afterCleanup with current := some s.nextId, nextId := s.nextId + 1 }
  | .unmount =>
      match s.current with
      | some u => { s with revokeLog := s.revokeLog ++ [u], current := none }
      | none => s

/-- Running a sequence of events from the initial state. -/
def runUrl (events : List UiEvent) : UrlState :=
  events.foldl stepUrl initialUrlState

/-- C9 supporting theorem: replacing the first uploaded clip with a
second one revokes the first object URL handle twice, once in the
change handler and once in the effect cleanup, so release is not
exactly-once. -/
theorem url_double_revoke_on_replacement :
    (runUrl [.selectFile, .selectFile]).revokeLog.count 0 = 2
  ∧ (runUrl [.selectFile, .selectFile, .unmount]).revokeLog = [0, 0, 1] := by
  constructor <;> rfl

end Sieveify
